import Mathlib

/-
Formal model of the OCCT C wrapper (src/core/geometry/occt/occt_c_wrapper.cpp).

The wrapper is a C facade over the external OpenCascade (OCCT 7.9.x) kernel:
parameter validation, try/catch-to-null translation, opaque-handle ownership
and mesh-buffer flattening. The facade logic is embedded here directly from
the source; the external kernel calls (BRepPrimAPI makers, BRepAlgoAPI
Boolean algorithms, BRepMesh_IncrementalMesh, BRepCheck_Analyzer,
Poly_Triangulation data) appear as explicit oracle records whose fields are
the observations the facade makes of them, together with the kernel contracts
the facade relies on. Double-precision reals are modelled as exact rationals;
every comparison of a euclidean norm against a tolerance is stated as the
equivalent comparison of squared values, both sides being nonnegative.
-/

set_option autoImplicit false
set_option linter.unusedVariables false

namespace OCCTWrapper

/-- Exact-arithmetic stand-in for the double-precision x,y,z triples of the
wrapper (gp_Pnt, gp_Vec, gp_XYZ, the mesh vertex/normal entries). -/
structure Vec3 where
  x : ℚ
  y : ℚ
  z : ℚ
deriving DecidableEq

def Vec3.zero : Vec3 := ⟨0, 0, 0⟩

def Vec3.add (a b : Vec3) : Vec3 := ⟨a.x + b.x, a.y + b.y, a.z + b.z⟩

def Vec3.sub (a b : Vec3) : Vec3 := ⟨b.x - a.x, b.y - a.y, b.z - a.z⟩

/-- Cross product, as gp_Vec::Crossed. -/
def Vec3.cross (a b : Vec3) : Vec3 :=
  ⟨a.y * b.z - a.z * b.y, a.z * b.x - a.x * b.z, a.x * b.y - a.y * b.x⟩

/-- Squared euclidean magnitude; the source compares gp_Vec::Magnitude
(the square root of this) against tolerances. -/
def Vec3.magSq (a : Vec3) : ℚ := a.x * a.x + a.y * a.y + a.z * a.z

/-- Squared distance between two points, the squared form of
gp_Pnt::Distance. -/
def distSq (a b : Vec3) : ℚ := Vec3.magSq (Vec3.sub a b)

/-- The 1e-7 tolerance used by the wire degeneracy filter and the normal
normalization threshold. -/
def eps : ℚ := 1 / 10 ^ 7

/-- Squared form of the 1e-7 tolerance: comparing a magnitude with eps is
equivalent to comparing the squared magnitude with epsSq. -/
def epsSq : ℚ := eps * eps

/-- Shape kinds of the external kernel: the OCCT TopAbs_ShapeEnum
enumeration of OCCT 7.9.x, whose declaration order (hence numeric values)
is COMPOUND, COMPSOLID, SOLID, SHELL, FACE, WIRE, EDGE, VERTEX, SHAPE. -/
inductive TopAbs where
  | compound
  | compsolid
  | solid
  | shell
  | face
  | wire
  | edge
  | vertex
  | shape
deriving DecidableEq

/-- Numeric value of a TopAbs_ShapeEnum constant, what
static_cast to int yields on it in the source. -/
def TopAbs.toInt : TopAbs → Int
  | .compound => 0
  | .compsolid => 1
  | .solid => 2
  | .shell => 3
  | .face => 4
  | .wire => 5
  | .edge => 6
  | .vertex => 7
  | .shape => 8

/-- Model of a kernel TopoDS_Shape as observed through the facade: its IsNull
flag, its ShapeType tag, and the BRepCheck_Analyzer verdict for it (the
kernel validity check is a deterministic function of the shape, recorded
here as a field). -/
structure TShape where
  isNull : Bool
  kind : TopAbs
  analyzerValid : Bool
deriving DecidableEq

/-- OCCT_Shape_Type from the source: -1 for a null handle, -1 for a handle
whose shape IsNull, otherwise the integer value of the kernel ShapeType
enumeration constant. A handle is modelled as an optional shape, none being
the null pointer. -/
def OCCT_Shape_Type : Option TShape → Int
  | none => -1
  | some s => if s.isNull then -1 else s.kind.toInt

/-- OCCT_Shape_IsValid from the source: false for a null handle or a null
shape, otherwise the BRepCheck_Analyzer verdict. -/
def OCCT_Shape_IsValid : Option TShape → Bool
  | none => false
  | some s => if s.isNull then false else s.analyzerValid

/-- Outcome of a facade call whose body is not wrapped in try/catch: either a
normal return of a freshly allocated (hence non-null) handle to the value, or
a kernel exception propagating out of the facade to the caller. -/
inductive CallResult (α : Type) where
  | ok (a : α)
  | raised
deriving DecidableEq

/-- Kernel constructor gp_Pnt(x,y,z): stores the coordinates, never raises. -/
def gp_Pnt_new (x y z : ℚ) : Vec3 := ⟨x, y, z⟩

/-- Kernel constructor gp_Vec(x,y,z): stores the coordinates, never raises. -/
def gp_Vec_new (x y z : ℚ) : Vec3 := ⟨x, y, z⟩

/-- Kernel constructor gp_Dir(x,y,z): raises Standard_ConstructionError when
the input magnitude is at most gp::Resolution (the smallest positive double,
so exactly the zero vector in this exact-arithmetic model) and otherwise
stores the input normalized to unit length. The model keeps the raw
coordinates, which determine the stored direction. -/
def gp_Dir_new (x y z : ℚ) : CallResult Vec3 :=
  if x = 0 ∧ y = 0 ∧ z = 0 then .raised else .ok ⟨x, y, z⟩

/-- OCCT_Pnt_Create from the source: one kernel allocation, no try/catch
around it (gp_Pnt cannot raise). -/
def OCCT_Pnt_Create (x y z : ℚ) : CallResult Vec3 := .ok (gp_Pnt_new x y z)

/-- OCCT_Vec_Create from the source: one kernel allocation, no try/catch
around it (gp_Vec cannot raise). -/
def OCCT_Vec_Create (x y z : ℚ) : CallResult Vec3 := .ok (gp_Vec_new x y z)

/-- OCCT_Dir_Create from the source: one kernel gp_Dir construction with no
try/catch around it, so a kernel construction error propagates out. -/
def OCCT_Dir_Create (x y z : ℚ) : CallResult Vec3 := gp_Dir_new x y z

/-- Kernel oracle for one BRepPrimAPI primitive maker run (MakeBox,
MakeCylinder, MakeSphere, MakeCone, MakeTorus): whether Build completed
without raising, and the shape it built. Kernel contract recorded with the
oracle: a completed primitive build yields a non-null valid solid. -/
structure PrimKernel where
  isDone : Bool
  built : TShape
  built_ok : isDone = true →
    built.isNull = false ∧ built.kind = TopAbs.solid ∧ built.analyzerValid = true

/-- OCCT_Primitive_Box from the source: rejects non-positive dimensions with
a null return, then delegates to BRepPrimAPI_MakeBox; null when the kernel
build does not complete (or raises, which the catch converts to the same
null). The debug printf calls of the source do not affect the return value
and are not modelled. -/
def OCCT_Primitive_Box (dx dy dz : ℚ) (k : PrimKernel) : Option TShape :=
  if dx ≤ 0 ∨ dy ≤ 0 ∨ dz ≤ 0 then none
  else if k.isDone then some k.built else none

/-- OCCT_Primitive_Cylinder from the source: rejects non-positive radius or
height, then delegates to BRepPrimAPI_MakeCylinder. -/
def OCCT_Primitive_Cylinder (radius height : ℚ) (k : PrimKernel) : Option TShape :=
  if radius ≤ 0 ∨ height ≤ 0 then none
  else if k.isDone then some k.built else none

/-- OCCT_Primitive_Sphere from the source: rejects a non-positive radius,
then delegates to BRepPrimAPI_MakeSphere. -/
def OCCT_Primitive_Sphere (radius : ℚ) (k : PrimKernel) : Option TShape :=
  if radius ≤ 0 then none
  else if k.isDone then some k.built else none

/-- Validation guard of OCCT_Primitive_Cone, evaluated before the kernel is
consulted: either radius negative, height non-positive, or both radii zero. -/
def coneRejected (radius1 radius2 height : ℚ) : Bool :=
  decide (radius1 < 0 ∨ radius2 < 0 ∨ height ≤ 0) || decide (radius1 = 0 ∧ radius2 = 0)

/-- OCCT_Primitive_Cone from the source: the two validation checks, then
delegation to BRepPrimAPI_MakeCone. -/
def OCCT_Primitive_Cone (radius1 radius2 height : ℚ) (k : PrimKernel) : Option TShape :=
  if coneRejected radius1 radius2 height then none
  else if k.isDone then some k.built else none

/-- OCCT_Primitive_Torus from the source: rejects non-positive radii, rejects
a minor radius at least the major radius, then delegates to
BRepPrimAPI_MakeTorus. -/
def OCCT_Primitive_Torus (major_radius minor_radius : ℚ) (k : PrimKernel) : Option TShape :=
  if major_radius ≤ 0 ∨ minor_radius ≤ 0 then none
  else if minor_radius ≥ major_radius then none
  else if k.isDone then some k.built else none

/-- Degeneracy filter of the wire builders: the source skips a pair with
Distance(p1,p2) < 1e-7; stated here as the equivalent squared comparison. -/
def degenerate (p1 p2 : Vec3) : Bool := decide (distSq p1 p2 < epsSq)

/-- Kernel model, BRepBuilderAPI_MakeEdge(p1,p2) on a segment: the edge build
completes exactly when the two points are not confused, i.e. their distance
exceeds the kernel confusion tolerance 1e-7 (squared comparison). -/
def makeEdgeDone (p1 p2 : Vec3) : Bool := decide (epsSq < distSq p1 p2)

/-- Body of iteration i of the edge loop shared by OCCT_Wire_FromPoints2D and
OCCT_Wire_FromPoints3D: next wraps modulo the point count, the loop exits
before building the closing edge when closed is false (for i = n-1 the break
of the source is the same as skipping), a pair closer than 1e-7 is skipped,
and an edge whose kernel build does not complete is skipped. -/
def edgeAt (pts : List Vec3) (closed : Bool) (i : ℕ) : Option (Vec3 × Vec3) :=
  if i = pts.length - 1 ∧ closed = false then none
  else if degenerate (pts.getD i Vec3.zero) (pts.getD ((i + 1) % pts.length) Vec3.zero) then
    none
  else if makeEdgeDone (pts.getD i Vec3.zero) (pts.getD ((i + 1) % pts.length) Vec3.zero) then
    some (pts.getD i Vec3.zero, pts.getD ((i + 1) % pts.length) Vec3.zero)
  else none

/-- The edges added to the wire builder by the loop, in loop order. -/
def wireEdges (pts : List Vec3) (closed : Bool) : List (Vec3 × Vec3) :=
  (List.range pts.length).filterMap (edgeAt pts closed)

/-- Kernel model, BRepBuilderAPI_MakeWire over the polyline edges: with no
edge added the builder reports EmptyWire and IsDone is false; otherwise the
build completes, consecutive surviving polyline edges sharing endpoints
within the kernel connection tolerance. -/
def makeWireDone (edges : List (Vec3 × Vec3)) : Bool := !edges.isEmpty

/-- Common tail of the two wire builders after the points are decoded: run
the edge loop, then return the wire (modelled by its edge list) when the
wire build completed, else null. -/
def wireCore (pts : List Vec3) (closed : Bool) : Option (List (Vec3 × Vec3)) :=
  let edges := wireEdges pts closed
  if makeWireDone edges then some edges else none

/-- Decoding of the flat 2D coordinate array by the source loop: point i is
(points[i*2], points[i*2+1], 0). -/
def decode2D (points : List ℚ) (num_points : ℕ) : List Vec3 :=
  (List.range num_points).map fun i =>
    ⟨points.getD (i * 2) 0, points.getD (i * 2 + 1) 0, 0⟩

/-- Decoding of the flat 3D coordinate array by the source loop: point i is
(points[i*3], points[i*3+1], points[i*3+2]). -/
def decode3D (points : List ℚ) (num_points : ℕ) : List Vec3 :=
  (List.range num_points).map fun i =>
    ⟨points.getD (i * 3) 0, points.getD (i * 3 + 1) 0, points.getD (i * 3 + 2) 0⟩

/-- OCCT_Wire_FromPoints2D from the source: null for a null array or fewer
than 2 points, else the edge loop over the decoded XY-plane points. -/
def OCCT_Wire_FromPoints2D (points : Option (List ℚ)) (num_points : ℕ)
    (closed : Bool) : Option (List (Vec3 × Vec3)) :=
  match points with
  | none => none
  | some arr =>
    if num_points < 2 then none else wireCore (decode2D arr num_points) closed

/-- OCCT_Wire_FromPoints3D from the source: null for a null array or fewer
than 2 points, else the edge loop over the decoded 3D points. -/
def OCCT_Wire_FromPoints3D (points : Option (List ℚ)) (num_points : ℕ)
    (closed : Bool) : Option (List (Vec3 × Vec3)) :=
  match points with
  | none => none
  | some arr =>
    if num_points < 2 then none else wireCore (decode3D arr num_points) closed

/-- A non-null valid solid shape, as the primitive-maker contract yields. -/
def solidShape : TShape := ⟨false, TopAbs.solid, true⟩

/-- Primitive-kernel oracle for a build that completed. -/
def doneKernel : PrimKernel := ⟨true, solidShape, fun _ => ⟨rfl, rfl, rfl⟩⟩

/-- Primitive-kernel oracle for a build that did not complete. -/
def failedKernel : PrimKernel := ⟨false, solidShape, fun h => nomatch h⟩

/-- Affine placement transform (gp_Trsf as used by the tessellation walk:
Transformed applies a linear part, the three rows here, and a translation). -/
structure Trsf where
  r1 : Vec3
  r2 : Vec3
  r3 : Vec3
  t : Vec3
deriving DecidableEq

/-- Dot product of two coordinate triples. -/
def dot (a b : Vec3) : ℚ := a.x * b.x + a.y * b.y + a.z * b.z

/-- Application of a placement transform to a node
(gp_Pnt::Transformed). -/
def Trsf.apply (T : Trsf) (p : Vec3) : Vec3 :=
  ⟨dot T.r1 p + T.t.x, dot T.r2 p + T.t.y, dot T.r3 p + T.t.z⟩

/-- The identity placement. -/
def Trsf.id : Trsf := ⟨⟨1, 0, 0⟩, ⟨0, 1, 0⟩, ⟨0, 0, 1⟩, ⟨0, 0, 0⟩⟩

/-- Kernel-side data of one face visited by the tessellation walk, as read
back through BRep_Tool::Triangulation: the Poly_Triangulation nodes, its
1-based triangle node-index triples, and the face placement transform. A
face whose triangulation handle is null appears as none and is skipped. -/
structure FaceTri where
  nodes : List Vec3
  tris : List (ℕ × ℕ × ℕ)
  loc : Trsf
deriving DecidableEq

/-- Well-formedness contract of a kernel Poly_Triangulation: every triangle
references 1-based node indices between 1 and the node count. -/
def FaceTri.wf (ft : FaceTri) : Prop :=
  ∀ tr ∈ ft.tris,
    1 ≤ tr.1 ∧ tr.1 ≤ ft.nodes.length ∧
    1 ≤ tr.2.1 ∧ tr.2.1 ≤ ft.nodes.length ∧
    1 ≤ tr.2.2 ∧ tr.2.2 ≤ ft.nodes.length

/-- Kernel oracle for the BRepMesh_IncrementalMesh run on a shape: the IsDone
flag of the mesher and the per-face triangulations the subsequent face walk
observes, in exploration order. -/
structure MeshKernel where
  isDone : Bool
  faces : List (Option FaceTri)

/-- Tessellation parameter record of the interface (linear deflection,
angular deflection, relative flag); the parameters configure the mesher,
whose resulting triangulations the MeshKernel oracle already carries. -/
structure TessParams where
  linear_deflection : ℚ
  angular_deflection : ℚ
  relative : Bool
deriving DecidableEq

/-- Mesh buffers accumulated by the face walk, and the payload of a non-null
OCCT_Mesh result: vertex positions, per-vertex normals and flat triangle
indices. An emitted normal is recorded as the accumulated vector paired with
the flag telling whether the source normalized it (divided it by its
magnitude) before emission. -/
structure Mesh where
  vertices : List Vec3
  normals : List (Vec3 × Bool)
  triangles : List ℤ
deriving DecidableEq

/-- Adding a vector into one slot of the running per-node normal array. -/
def addAt (l : List Vec3) (i : ℕ) (v : Vec3) : List Vec3 :=
  l.set i (Vec3.add (l.getD i Vec3.zero) v)

/-- Facet normal of one triangle: the cross product of the two edge vectors
out of the first vertex (gp_Vec v1(p1,p2), v2(p1,p3), v1.Crossed(v2)). -/
def triNormal (p1 p2 p3 : Vec3) : Vec3 := Vec3.cross (Vec3.sub p1 p2) (Vec3.sub p1 p3)

/-- First triangle loop of the walk over one face: accumulate each facet
normal into the running normal of each of its three (1-based) nodes,
starting from all zeroes. -/
def accumNormals (nodes : List Vec3) (tris : List (ℕ × ℕ × ℕ)) : List Vec3 :=
  tris.foldl
    (fun nn tr =>
      let p1 := nodes.getD (tr.1 - 1) Vec3.zero
      let p2 := nodes.getD (tr.2.1 - 1) Vec3.zero
      let p3 := nodes.getD (tr.2.2 - 1) Vec3.zero
      let n := triNormal p1 p2 p3
      addAt (addAt (addAt nn (tr.1 - 1) n) (tr.2.1 - 1) n) (tr.2.2 - 1) n)
    (List.replicate nodes.length Vec3.zero)

/-- Normalization step of the source (if Magnitude > 1e-7 then Normalize,
then emit): the accumulated vector paired with the normalize flag, the
magnitude comparison stated as the equivalent squared comparison. -/
def emitNormal (n : Vec3) : Vec3 × Bool := (n, decide (epsSq < Vec3.magSq n))

/-- Emitted per-vertex normals of one face. -/
def faceNormals (nodes : List Vec3) (tris : List (ℕ × ℕ × ℕ)) : List (Vec3 × Bool) :=
  (accumNormals nodes tris).map emitNormal

/-- One step of the face walk: a face without triangulation leaves the
buffers unchanged; otherwise append the transformed nodes, the per-vertex
normals and the triangle indices shifted by the running vertex count
(0-based: offset + n - 1 in int arithmetic). -/
def walkFace (acc : Mesh) (f : Option FaceTri) : Mesh :=
  match f with
  | none => acc
  | some ft =>
    let offset := acc.vertices.length
    let nodes := ft.nodes.map ft.loc.apply
    { vertices := acc.vertices ++ nodes
      normals := acc.normals ++ faceNormals nodes ft.tris
      triangles := acc.triangles ++ ft.tris.flatMap (fun tr =>
        [(offset : ℤ) + tr.1 - 1, (offset : ℤ) + tr.2.1 - 1, (offset : ℤ) + tr.2.2 - 1]) }

/-- The whole face walk of OCCT_Tessellate over the explored faces. -/
def tessWalk (faces : List (Option FaceTri)) : Mesh :=
  faces.foldl walkFace ⟨[], [], []⟩

/-- OCCT_Tessellate from the source: null for a null handle or a null shape;
null when the mesher run does not complete (a kernel exception, caught at
the boundary, yields the same null); then the face walk; null when it
produced no vertices or no triangles, else the flattened mesh. -/
def OCCT_Tessellate (shape : Option TShape) (params : TessParams)
    (mk : MeshKernel) : Option Mesh :=
  match shape with
  | none => none
  | some s =>
    if s.isNull then none
    else if !mk.isDone then none
    else if (tessWalk mk.faces).vertices.isEmpty || (tessWalk mk.faces).triangles.isEmpty then
      none
    else some (tessWalk mk.faces)

/-- Handle registry for the stateful claims: live handle ids mapped to the
shapes they reference. An id absent from the registry is a released handle;
dereferencing one is undefined behaviour in the source, and the facade
functions modelled over the registry return their null sentinel for it. -/
abbrev World := List (ℕ × TShape)

/-- Association lookup in the registry. -/
def lookupShape (w : World) (i : ℕ) : Option TShape :=
  match w with
  | [] => none
  | (j, s) :: rest => if i = j then some s else lookupShape rest i

/-- Largest id present in the registry (0 when empty). -/
def maxKey (w : World) : ℕ := w.foldr (fun p acc => max p.1 acc) 0

/-- Id of a fresh allocation: larger than every id in use. -/
def freshId (w : World) : ℕ := maxKey w + 1

/-- One facade call of OCCT_Shape_IsValid as a state transformer over the
registry: the body only reads the shape behind the handle (null check,
IsNull check, analyzer verdict) and performs no write, so the registry
comes back unchanged. -/
def isValidRun (w : World) (h : Option ℕ) : Bool × World :=
  (OCCT_Shape_IsValid (h.bind (lookupShape w)), w)

/-- Kernel oracle for one BRepAlgoAPI Boolean run (Fuse, Cut or Common):
whether the algorithm completed, and the result shape it produced. The
kernel algorithms take their operands by const reference and neither modify
nor free them. -/
structure BoolKernel where
  isDone : Bool
  result : TShape

/-- Common body of OCCT_Boolean_Union, OCCT_Boolean_Difference and
OCCT_Boolean_Intersection, which are textually identical up to the delegated
kernel algorithm (the oracle k): null checks on both handles, null checks on
both referenced shapes, then on success a copy of the kernel result into a
freshly allocated shape whose new handle is returned; on kernel failure (or
a caught kernel exception) the null sentinel, with no change to the
registry. -/
def booleanRun (w : World) (h1 h2 : Option ℕ) (k : BoolKernel) : Option ℕ × World :=
  match h1, h2 with
  | some a, some b =>
    match lookupShape w a, lookupShape w b with
    | some s1, some s2 =>
      if s1.isNull || s2.isNull then (none, w)
      else if k.isDone then (some (freshId w), (freshId w, k.result) :: w)
      else (none, w)
    | _, _ => (none, w)
  | _, _ => (none, w)

/-- OCCT_Boolean_Union from the source (BRepAlgoAPI_Fuse). -/
def OCCT_Boolean_Union (w : World) (shape1 shape2 : Option ℕ)
    (k : BoolKernel) : Option ℕ × World :=
  booleanRun w shape1 shape2 k

/-- OCCT_Boolean_Difference from the source (BRepAlgoAPI_Cut). -/
def OCCT_Boolean_Difference (w : World) (base tool : Option ℕ)
    (k : BoolKernel) : Option ℕ × World :=
  booleanRun w base tool k

/-- OCCT_Boolean_Intersection from the source (BRepAlgoAPI_Common). -/
def OCCT_Boolean_Intersection (w : World) (shape1 shape2 : Option ℕ)
    (k : BoolKernel) : Option ℕ × World :=
  booleanRun w shape1 shape2 k

/-- Concrete kernel observation: a face triangulated into the single unit
right triangle. -/
def unitFace : FaceTri :=
  ⟨[⟨0, 0, 0⟩, ⟨1, 0, 0⟩, ⟨0, 1, 0⟩], [(1, 2, 3)], Trsf.id⟩

/-- Mesher oracle of a completed run over the unit-triangle face. -/
def unitMk : MeshKernel := ⟨true, [some unitFace]⟩

/-- Mesher oracle of a run that did not complete, same face data. -/
def failedMk : MeshKernel := ⟨false, [some unitFace]⟩

/-- Concrete tessellation parameters for the concrete runs. -/
def someParams : TessParams := ⟨1 / 10, 1 / 2, false⟩

/-- The mesh the face walk produces for the unit-triangle face: three
vertices, three unit normals (flagged normalized), one index triple. -/
def unitMesh : Mesh :=
  ⟨[⟨0, 0, 0⟩, ⟨1, 0, 0⟩, ⟨0, 1, 0⟩],
   [(⟨0, 0, 1⟩, true), (⟨0, 0, 1⟩, true), (⟨0, 0, 1⟩, true)],
   [0, 1, 2]⟩

/-- Concrete kernel observation: a face triangulated into one tiny triangle
whose facet normal has magnitude 1e-8, below the 1e-7 threshold. -/
def tinyFace : FaceTri :=
  ⟨[⟨0, 0, 0⟩, ⟨1 / 10 ^ 4, 0, 0⟩, ⟨0, 1 / 10 ^ 4, 0⟩], [(1, 2, 3)], Trsf.id⟩

/-- Mesher oracle of a completed run over the tiny-triangle face. -/
def tinyMk : MeshKernel := ⟨true, [some tinyFace]⟩

/-- The mesh the face walk produces for the tiny-triangle face: the emitted
normals are the raw accumulated sums (0, 0, 1e-8), not normalized and not
zero. -/
def tinyMesh : Mesh :=
  ⟨[⟨0, 0, 0⟩, ⟨1 / 10 ^ 4, 0, 0⟩, ⟨0, 1 / 10 ^ 4, 0⟩],
   [(⟨0, 0, 1 / 10 ^ 8⟩, false), (⟨0, 0, 1 / 10 ^ 8⟩, false), (⟨0, 0, 1 / 10 ^ 8⟩, false)],
   [0, 1, 2]⟩

/-- Concrete Boolean-kernel oracle of a completed run. -/
def doneBoolKernel : BoolKernel := ⟨true, solidShape⟩

/-- Concrete two-handle registry for the Boolean frame witness. -/
def twoShapeWorld : World := [(1, solidShape), (2, solidShape)]

/-- C1: the implementation returns the raw kernel TopAbs_ShapeEnum value,
under which every successfully built box, cylinder or sphere primitive (a
solid) yields 2 — not the 5 of the 0=vertex .. 6=compound table documented in
the wrapper header — while a null handle or an empty shape yields the
sentinel -1 as documented; under the kernel enumeration a vertex is 7 and a
compound is 0. -/
theorem shape_type_kernel_enum :
    OCCT_Shape_Type (OCCT_Primitive_Box 1 1 1 doneKernel) = 2 ∧
    OCCT_Shape_Type (OCCT_Primitive_Cylinder 1 1 doneKernel) = 2 ∧
    OCCT_Shape_Type (OCCT_Primitive_Sphere 1 doneKernel) = 2 ∧
    OCCT_Shape_Type none = -1 ∧
    OCCT_Shape_Type (some ⟨true, TopAbs.solid, true⟩) = -1 ∧
    TopAbs.toInt TopAbs.vertex = 7 ∧ TopAbs.toInt TopAbs.compound = 0 := by
  norm_num [OCCT_Shape_Type, OCCT_Primitive_Box, OCCT_Primitive_Cylinder,
    OCCT_Primitive_Sphere, doneKernel, solidShape, TopAbs.toInt]

/-- C2 counterexample: OCCT_Dir_Create(0,0,0) lets the kernel construction
error propagate out of the call (the source function wraps nothing in
try/catch), so the call neither succeeds with a non-null handle nor converts
the exception to a null sentinel. -/
theorem dir_create_zero_raises :
    OCCT_Dir_Create 0 0 0 = CallResult.raised := by
  simp [OCCT_Dir_Create, gp_Dir_new]

/-- C2 amended: OCCT_Pnt_Create and OCCT_Vec_Create return an owned non-null
value handle for every finite input and never raise; OCCT_Dir_Create returns
an owned non-null handle for every non-zero input, while for the zero vector
the kernel construction error propagates out of the call, these three
constructors containing no try/catch. -/
theorem gp_create_amended (x y z : ℚ) :
    OCCT_Pnt_Create x y z = CallResult.ok ⟨x, y, z⟩ ∧
    OCCT_Vec_Create x y z = CallResult.ok ⟨x, y, z⟩ ∧
    (¬(x = 0 ∧ y = 0 ∧ z = 0) → OCCT_Dir_Create x y z = CallResult.ok ⟨x, y, z⟩) ∧
    ((x = 0 ∧ y = 0 ∧ z = 0) → OCCT_Dir_Create x y z = CallResult.raised) := by
  refine ⟨rfl, rfl, ?_, ?_⟩ <;> intro h <;> simp [OCCT_Dir_Create, gp_Dir_new, h]

/-- C2 witness: the amended statement evaluated at (1,2,3) and at the zero
vector. -/
theorem gp_create_amended_witness :
    OCCT_Dir_Create 1 2 3 = CallResult.ok ⟨1, 2, 3⟩ ∧
    OCCT_Dir_Create 0 0 0 = CallResult.raised :=
  ⟨(gp_create_amended 1 2 3).2.2.1 (by norm_num),
   (gp_create_amended 0 0 0).2.2.2 ⟨rfl, rfl, rfl⟩⟩

/-- C6: OCCT_Primitive_Torus returns the null sentinel when the minor radius
is at least the major radius or either radius is non-positive; for positive
radii with minor < major it delegates, and when the kernel build completes
the returned shape is a non-null solid passing the validity check. -/
theorem torus_spec (major minor : ℚ) (k : PrimKernel) :
    ((minor ≥ major ∨ major ≤ 0 ∨ minor ≤ 0) →
      OCCT_Primitive_Torus major minor k = none) ∧
    (0 < major → 0 < minor → minor < major → k.isDone = true →
      OCCT_Primitive_Torus major minor k = some k.built ∧
      k.built.isNull = false ∧ k.built.kind = TopAbs.solid ∧
      OCCT_Shape_IsValid (OCCT_Primitive_Torus major minor k) = true) := by
  constructor
  · intro h
    unfold OCCT_Primitive_Torus
    split_ifs with h1 h2 h3
    · rfl
    · rfl
    · exfalso
      push_neg at h1
      rcases h with h | h | h
      · exact absurd h h2
      · linarith [h1.1]
      · linarith [h1.2]
    · rfl
  · intro hmaj hmin hlt hdone
    have h1 : ¬(major ≤ 0 ∨ minor ≤ 0) := by push_neg; exact ⟨hmaj, hmin⟩
    have h2 : ¬(minor ≥ major) := not_le.mpr hlt
    have heq : OCCT_Primitive_Torus major minor k = some k.built := by
      unfold OCCT_Primitive_Torus
      rw [if_neg h1, if_neg h2, hdone]
      simp
    obtain ⟨hn, hk, hv⟩ := k.built_ok hdone
    refine ⟨heq, hn, hk, ?_⟩
    rw [heq]
    simp [OCCT_Shape_IsValid, hn, hv]

/-- C6 witness: the torus spec evaluated at the rejected pair (1,2) and the
accepted pair (2,1) with a completed kernel build. -/
theorem torus_spec_witness :
    OCCT_Primitive_Torus 1 2 doneKernel = none ∧
    OCCT_Primitive_Torus 2 1 doneKernel = some solidShape :=
  ⟨(torus_spec 1 2 doneKernel).1 (Or.inl (by norm_num)),
   ((torus_spec 2 1 doneKernel).2 (by norm_num) (by norm_num) (by norm_num) rfl).1⟩

/-- C8: an IsValid call leaves the registry unchanged, so two consecutive
calls on the same unmodified handle (the null handle included) return the
same boolean. -/
theorem isValid_idempotent (w : World) (h : Option ℕ) :
    (isValidRun w h).2 = w ∧
    (isValidRun (isValidRun w h).2 h).1 = (isValidRun w h).1 :=
  ⟨rfl, rfl⟩

/-- C8 witness: the idempotence statement evaluated on a concrete registry
and handle. -/
theorem isValid_idempotent_witness :
    (isValidRun twoShapeWorld (some 1)).2 = twoShapeWorld ∧
    (isValidRun (isValidRun twoShapeWorld (some 1)).2 (some 1)).1 =
      (isValidRun twoShapeWorld (some 1)).1 :=
  isValid_idempotent twoShapeWorld (some 1)

/-- C10: the cone validation guard rejects exactly when a radius is negative,
the height is non-positive, or both radii are zero; rejection yields null
before the kernel is consulted; a validated call returns exactly what the
kernel delegation yields; and a cone with exactly one zero radius passes
validation. -/
theorem cone_spec (radius1 radius2 height : ℚ) (k : PrimKernel) :
    (coneRejected radius1 radius2 height = true ↔
      radius1 < 0 ∨ radius2 < 0 ∨ height ≤ 0 ∨ (radius1 = 0 ∧ radius2 = 0)) ∧
    (coneRejected radius1 radius2 height = true →
      OCCT_Primitive_Cone radius1 radius2 height k = none) ∧
    (coneRejected radius1 radius2 height = false →
      OCCT_Primitive_Cone radius1 radius2 height k =
        (if k.isDone then some k.built else none)) ∧
    (radius1 = 0 → 0 < radius2 → 0 < height →
      coneRejected radius1 radius2 height = false) := by
  refine ⟨?_, ?_, ?_, ?_⟩
  · simp [coneRejected, or_assoc]
  · intro h
    simp [OCCT_Primitive_Cone, h]
  · intro h
    simp [OCCT_Primitive_Cone, h]
  · intro h0 h2 hh
    subst h0
    simp only [coneRejected, Bool.or_eq_false_iff, decide_eq_false_iff_not]
    constructor
    · push_neg
      exact ⟨le_refl 0, le_of_lt h2, hh⟩
    · intro hc
      exact absurd hc.2 (ne_of_gt h2)

/-- Every id present in the registry is at most the largest key. -/
theorem key_le_maxKey (w : World) (i : ℕ) (s : TShape) :
    lookupShape w i = some s → i ≤ maxKey w := by
  induction w with
  | nil => intro h; exact absurd h (by simp [lookupShape])
  | cons p rest ih =>
    intro h
    unfold lookupShape at h
    unfold maxKey
    simp only [List.foldr_cons]
    by_cases hi : i = p.1
    · subst hi
      exact le_max_left _ _
    · rw [if_neg hi] at h
      exact le_trans (ih h) (le_max_right _ _)

/-- A fresh id is not mapped by the registry. -/
theorem lookup_freshId (w : World) : lookupShape w (freshId w) = none := by
  cases hl : lookupShape w (freshId w) with
  | none => rfl
  | some s =>
    have hle := key_le_maxKey w (freshId w) s hl
    unfold freshId at hle
    omega

/-- The shared Boolean body either returns the null sentinel with the
registry untouched, or allocates exactly one fresh entry holding the kernel
result. -/
theorem booleanRun_cases (w : World) (h1 h2 : Option ℕ) (k : BoolKernel) :
    booleanRun w h1 h2 k = (none, w) ∨
    booleanRun w h1 h2 k = (some (freshId w), (freshId w, k.result) :: w) := by
  unfold booleanRun
  split
  · split
    · split_ifs
      · exact Or.inl rfl
      · exact Or.inr rfl
      · exact Or.inl rfl
    · exact Or.inl rfl
  · exact Or.inl rfl

/-- The shared Boolean body preserves every mapped handle and returns, when
non-null, a handle that was unmapped before the call. -/
theorem booleanRun_frame (w : World) (h1 h2 : Option ℕ) (k : BoolKernel) :
    (∀ i s, lookupShape w i = some s →
      lookupShape (booleanRun w h1 h2 k).2 i = some s) ∧
    (∀ r, (booleanRun w h1 h2 k).1 = some r → lookupShape w r = none) := by
  rcases booleanRun_cases w h1 h2 k with hc | hc <;> rw [hc]
  · exact ⟨fun i s hs => hs, fun r hr => absurd hr (by simp)⟩
  · constructor
    · intro i s hs
      show lookupShape ((freshId w, k.result) :: w) i = some s
      unfold lookupShape
      have hne : i ≠ freshId w := by
        intro hi
        rw [hi, lookup_freshId] at hs
        exact Option.noConfusion hs
      rw [if_neg hne]
      exact hs
    · intro r hr
      have hrf : freshId w = r := Option.some.inj hr
      rw [← hrf]
      exact lookup_freshId w

/-- C9: Union, Difference and Intersection never mutate or free the shapes
referenced by existing handles: every handle mapped in the registry before
the call still maps to the same shape after it, and a non-null result is a
newly allocated handle, one unmapped before the call. -/
theorem boolean_frame (w : World) (h1 h2 : Option ℕ) (k : BoolKernel) :
    (∀ i s, lookupShape w i = some s →
      lookupShape (OCCT_Boolean_Union w h1 h2 k).2 i = some s ∧
      lookupShape (OCCT_Boolean_Difference w h1 h2 k).2 i = some s ∧
      lookupShape (OCCT_Boolean_Intersection w h1 h2 k).2 i = some s) ∧
    (∀ r, (OCCT_Boolean_Union w h1 h2 k).1 = some r ∨
        (OCCT_Boolean_Difference w h1 h2 k).1 = some r ∨
        (OCCT_Boolean_Intersection w h1 h2 k).1 = some r →
      lookupShape w r = none) := by
  obtain ⟨hp, hf⟩ := booleanRun_frame w h1 h2 k
  constructor
  · intro i s hs
    exact ⟨hp i s hs, hp i s hs, hp i s hs⟩
  · intro r hr
    rcases hr with hr | hr | hr <;> exact hf r hr

/-- C9 witness: the frame property evaluated on a concrete registry holding
two solids, with a completed Boolean kernel run: both input handles still
map to their shapes after the union, and the returned handle 3 was unmapped
before the call. -/
theorem boolean_frame_witness :
    lookupShape (OCCT_Boolean_Union twoShapeWorld (some 1) (some 2) doneBoolKernel).2 1 =
      some solidShape ∧
    lookupShape (OCCT_Boolean_Union twoShapeWorld (some 1) (some 2) doneBoolKernel).2 2 =
      some solidShape ∧
    lookupShape twoShapeWorld 3 = none :=
  ⟨((boolean_frame twoShapeWorld (some 1) (some 2) doneBoolKernel).1 1 solidShape rfl).1,
   ((boolean_frame twoShapeWorld (some 1) (some 2) doneBoolKernel).1 2 solidShape rfl).1,
   (boolean_frame twoShapeWorld (some 1) (some 2) doneBoolKernel).2 3 (Or.inl rfl)⟩

/-- An edge produced at loop index i joins two points at distance above the
1e-7 tolerance, joins point i to point (i+1) mod n, and when closed is false
never sits at the last index. -/
theorem edgeAt_some {pts : List Vec3} {closed : Bool} {i : ℕ} {e : Vec3 × Vec3}
    (h : edgeAt pts closed i = some e) :
    epsSq < distSq e.1 e.2 ∧
    e = (pts.getD i Vec3.zero, pts.getD ((i + 1) % pts.length) Vec3.zero) ∧
    (closed = false → i ≠ pts.length - 1) := by
  unfold edgeAt at h
  split_ifs at h with h1 h2 h3
  have he := (Option.some.inj h).symm
  subst he
  exact ⟨of_decide_eq_true h3, rfl, fun hc hi => h1 ⟨hi, hc⟩⟩

/-- C4: both wire builders, given at least 2 points, run the shared edge
loop, under which every consecutive pair closer than 1e-7 contributes no
edge (each surviving edge joins points at distance above the tolerance) and
causes no failure by itself; with closed = false every edge steps from point
i to point i+1 with i+1 before the point count, so no edge joins the last
point back to the first; and the loop result is a wire exactly when at least
one non-degenerate edge survives, null otherwise. -/
theorem wire_from_polyline_spec (points : List ℚ) (num_points : ℕ) (closed : Bool)
    (hn : 2 ≤ num_points) :
    OCCT_Wire_FromPoints2D (some points) num_points closed =
      wireCore (decode2D points num_points) closed ∧
    OCCT_Wire_FromPoints3D (some points) num_points closed =
      wireCore (decode3D points num_points) closed ∧
    ∀ pts : List Vec3, pts.length = num_points →
      (∀ e ∈ wireEdges pts closed, epsSq < distSq e.1 e.2) ∧
      (closed = false → ∀ e ∈ wireEdges pts closed, ∃ i, i + 1 < pts.length ∧
        e = (pts.getD i Vec3.zero, pts.getD (i + 1) Vec3.zero)) ∧
      (wireCore pts closed = none ↔ wireEdges pts closed = []) := by
  have hlt : ¬(num_points < 2) := not_lt.mpr hn
  refine ⟨by simp [OCCT_Wire_FromPoints2D, hlt],
    by simp [OCCT_Wire_FromPoints3D, hlt], ?_⟩
  intro pts hptslen
  refine ⟨?_, ?_, ?_⟩
  · intro e he
    obtain ⟨i, _, hsome⟩ := List.mem_filterMap.mp he
    exact (edgeAt_some hsome).1
  · intro hcl e he
    obtain ⟨i, hi, hsome⟩ := List.mem_filterMap.mp he
    obtain ⟨_, heq, hlast⟩ := edgeAt_some hsome
    have hilt : i < pts.length := List.mem_range.mp hi
    have hne : i ≠ pts.length - 1 := hlast hcl
    have hi1 : i + 1 < pts.length := by omega
    refine ⟨i, hi1, ?_⟩
    rw [heq, Nat.mod_eq_of_lt hi1]
  · rcases hE : wireEdges pts closed with _ | ⟨a, l⟩ <;>
      simp [wireCore, makeWireDone, hE]

/-- C4 witness: the wire spec evaluated at a 3-point open polyline whose
first two points coincide: the degenerate pair is skipped without failure
and the single surviving edge yields a wire. -/
theorem wire_from_polyline_spec_witness :
    OCCT_Wire_FromPoints3D (some [0, 0, 0, 0, 0, 0, 1, 0, 0]) 3 false =
      wireCore (decode3D [0, 0, 0, 0, 0, 0, 1, 0, 0] 3) false ∧
    wireCore (decode3D [0, 0, 0, 0, 0, 0, 1, 0, 0] 3) false =
      some [(⟨0, 0, 0⟩, ⟨1, 0, 0⟩)] := by
  constructor
  · exact (wire_from_polyline_spec [0, 0, 0, 0, 0, 0, 1, 0, 0] 3 false
      (by norm_num)).2.1
  · norm_num [wireCore, makeWireDone, wireEdges, edgeAt, decode3D, degenerate,
      makeEdgeDone, distSq, Vec3.magSq, Vec3.sub, Vec3.zero, epsSq, eps,
      List.range_succ, List.getD, List.filterMap_cons, List.filterMap_nil,
      List.filterMap_append]

/-- The squared tolerance is positive. -/
theorem epsSq_pos : (0 : ℚ) < epsSq := by norm_num [epsSq, eps]

/-- A non-null tessellation result is the face-walk mesh, and its vertex and
triangle buffers are non-empty. -/
theorem tessellate_some {shape : Option TShape} {params : TessParams}
    {mk : MeshKernel} {m : Mesh} (hm : OCCT_Tessellate shape params mk = some m) :
    m = tessWalk mk.faces ∧
    (tessWalk mk.faces).vertices.isEmpty = false ∧
    (tessWalk mk.faces).triangles.isEmpty = false := by
  cases shape with
  | none => exact absurd hm (by simp [OCCT_Tessellate])
  | some s =>
    simp only [OCCT_Tessellate] at hm
    split_ifs at hm with h1 h2 h3
    simp only [Bool.or_eq_true, not_or, Bool.not_eq_true] at h3
    exact ⟨(Option.some.inj hm).symm, h3.1, h3.2⟩

/-- The face walk preserves the normalize-flag discipline of the source
across any starting accumulator: every emitted normal carries the flag set
exactly when the squared magnitude of its accumulated vector exceeds the
squared threshold. -/
theorem walk_normals_flag (faces : List (Option FaceTri)) :
    ∀ acc : Mesh,
      (∀ e ∈ acc.normals, e.2 = decide (epsSq < Vec3.magSq e.1)) →
      ∀ e ∈ (faces.foldl walkFace acc).normals,
        e.2 = decide (epsSq < Vec3.magSq e.1) := by
  induction faces with
  | nil =>
    intro acc h
    exact h
  | cons f rest ih =>
    intro acc h
    rw [List.foldl_cons]
    apply ih
    cases f with
    | none => exact h
    | some ft =>
      intro e he
      simp only [walkFace, List.mem_append] at he
      rcases he with he | he
      · exact h e he
      · simp only [faceNormals, List.mem_map] at he
        obtain ⟨n, -, hn⟩ := he
        rw [← hn]
        rfl

/-- One walk step keeps every triangle index at least 0 and below the vertex
count, for a face satisfying the kernel triangulation contract. -/
theorem walkFace_tri_bounds (acc : Mesh) (f : Option FaceTri)
    (hf : ∀ ft, f = some ft → ft.wf)
    (h : ∀ j ∈ acc.triangles, 0 ≤ j ∧ j < (acc.vertices.length : ℤ)) :
    ∀ j ∈ (walkFace acc f).triangles,
      0 ≤ j ∧ j < ((walkFace acc f).vertices.length : ℤ) := by
  cases f with
  | none => exact h
  | some ft =>
    have hwf := hf ft rfl
    intro j hj
    simp only [walkFace, List.mem_append, List.length_append, List.length_map] at hj ⊢
    rcases hj with hj | hj
    · obtain ⟨h0, hlt⟩ := h j hj
      refine ⟨h0, ?_⟩
      push_cast
      omega
    · rw [List.mem_flatMap] at hj
      obtain ⟨tr, htr, hjt⟩ := hj
      obtain ⟨ha1, ha2, hb1, hb2, hc1, hc2⟩ := hwf tr htr
      simp only [List.mem_cons, List.not_mem_nil, or_false] at hjt
      rcases hjt with hjt | hjt | hjt <;> subst hjt <;> constructor <;> push_cast <;> omega

/-- The whole face walk keeps every triangle index within the vertex count
when every observed triangulation satisfies the kernel contract. -/
theorem tessWalk_tri_bounds (faces : List (Option FaceTri)) :
    ∀ acc : Mesh,
      (∀ f ∈ faces, ∀ ft, f = some ft → ft.wf) →
      (∀ j ∈ acc.triangles, 0 ≤ j ∧ j < (acc.vertices.length : ℤ)) →
      ∀ j ∈ (faces.foldl walkFace acc).triangles,
        0 ≤ j ∧ j < ((faces.foldl walkFace acc).vertices.length : ℤ) := by
  induction faces with
  | nil =>
    intro acc _ h
    exact h
  | cons f rest ih =>
    intro acc hwf h
    rw [List.foldl_cons]
    exact ih (walkFace acc f)
      (fun g hg => hwf g (List.mem_cons_of_mem f hg))
      (walkFace_tri_bounds acc f (fun ft hft => hwf f (List.mem_cons_self f rest) ft hft) h)

/-- Concrete evaluation: tessellating with the unit-triangle kernel
observation returns the unit mesh. -/
theorem unit_run_eval :
    OCCT_Tessellate (some solidShape) someParams unitMk = some unitMesh := by
  simp only [OCCT_Tessellate, solidShape, someParams, unitMk, unitFace, unitMesh,
    tessWalk, walkFace, faceNormals, accumNormals, emitNormal, addAt, triNormal,
    Trsf.apply, Trsf.id, dot, Vec3.cross, Vec3.sub, Vec3.add, Vec3.magSq, Vec3.zero,
    epsSq, eps, List.foldl, List.map, List.getD, List.get?, List.set, List.length,
    List.append_nil, List.nil_append, List.flatMap]
  norm_num

/-- Concrete evaluation: tessellating with the tiny-triangle kernel
observation returns the tiny mesh, whose normals are unnormalized. -/
theorem tiny_run_eval :
    OCCT_Tessellate (some solidShape) someParams tinyMk = some tinyMesh := by
  simp only [OCCT_Tessellate, solidShape, someParams, tinyMk, tinyFace, tinyMesh,
    tessWalk, walkFace, faceNormals, accumNormals, emitNormal, addAt, triNormal,
    Trsf.apply, Trsf.id, dot, Vec3.cross, Vec3.sub, Vec3.add, Vec3.magSq, Vec3.zero,
    epsSq, eps, List.foldl, List.map, List.getD, List.get?, List.set, List.length,
    List.append_nil, List.nil_append, List.flatMap]
  norm_num

/-- C3 counterexample: tessellating a face holding one tiny triangle (facet
normal magnitude 1e-8, below the 1e-7 threshold) returns a mesh whose first
emitted normal is the raw accumulated sum (0, 0, 1e-8): below the threshold
the source emits that sum unchanged, which is not the zero vector (and has
magnitude neither 1 nor 0). -/
theorem tessellate_tiny_normal_not_zero :
    OCCT_Tessellate (some solidShape) someParams tinyMk = some tinyMesh ∧
    tinyMesh.normals.getD 0 (Vec3.zero, true) = (⟨0, 0, 1 / 10 ^ 8⟩, false) ∧
    Vec3.magSq ⟨0, 0, 1 / 10 ^ 8⟩ ≤ epsSq ∧
    (⟨0, 0, 1 / 10 ^ 8⟩ : Vec3) ≠ Vec3.zero := by
  refine ⟨tiny_run_eval, by norm_num [tinyMesh, List.getD], ?_, ?_⟩
  · norm_num [Vec3.magSq, epsSq, eps]
  · intro hz
    have hzz := congrArg Vec3.z hz
    norm_num [Vec3.zero] at hzz

/-- C3 amended: every per-vertex normal of a returned mesh is the
accumulated sum of the facet normals of its adjacent triangles paired with
the normalize flag; the flag is set exactly when the magnitude of the sum
exceeds 1e-7, and then the emitted normal — the sum divided by its magnitude
— has magnitude exactly 1 in exact arithmetic; otherwise the source emits
the raw sum unnormalized, and its magnitude is at most 1e-7 (zero only when
the facet contributions cancel exactly). -/
theorem tessellate_normals_amended (shape : Option TShape) (params : TessParams)
    (mk : MeshKernel) (m : Mesh) (hm : OCCT_Tessellate shape params mk = some m) :
    ∀ e ∈ m.normals,
      e.2 = decide (epsSq < Vec3.magSq e.1) ∧
      (e.2 = true →
        Real.sqrt (((e.1.x : ℝ) / Real.sqrt ((Vec3.magSq e.1 : ℚ) : ℝ)) ^ 2 +
            ((e.1.y : ℝ) / Real.sqrt ((Vec3.magSq e.1 : ℚ) : ℝ)) ^ 2 +
            ((e.1.z : ℝ) / Real.sqrt ((Vec3.magSq e.1 : ℚ) : ℝ)) ^ 2) = 1) ∧
      (e.2 = false → Vec3.magSq e.1 ≤ epsSq) := by
  obtain ⟨hmw, -, -⟩ := tessellate_some hm
  subst hmw
  intro e he
  have hflag : e.2 = decide (epsSq < Vec3.magSq e.1) :=
    walk_normals_flag mk.faces ⟨[], [], []⟩
      (fun e2 he2 => absurd he2 (by simp)) e he
  refine ⟨hflag, ?_, ?_⟩
  · intro htrue
    have hgt : epsSq < Vec3.magSq e.1 := of_decide_eq_true (hflag ▸ htrue)
    have hq : (0 : ℚ) < Vec3.magSq e.1 := lt_trans epsSq_pos hgt
    have hspos : (0 : ℝ) < ((Vec3.magSq e.1 : ℚ) : ℝ) := by exact_mod_cast hq
    have hsq : Real.sqrt ((Vec3.magSq e.1 : ℚ) : ℝ) ^ 2 = ((Vec3.magSq e.1 : ℚ) : ℝ) :=
      Real.sq_sqrt hspos.le
    have hsum : ((e.1.x : ℝ)) ^ 2 + ((e.1.y : ℝ)) ^ 2 + ((e.1.z : ℝ)) ^ 2 =
        ((Vec3.magSq e.1 : ℚ) : ℝ) := by
      simp only [Vec3.magSq]
      push_cast
      ring
    rw [div_pow, div_pow, div_pow, hsq, div_add_div_same, div_add_div_same, hsum,
      div_self (ne_of_gt hspos), Real.sqrt_one]
  · intro hfalse
    have hd : decide (epsSq < Vec3.magSq e.1) = false := hflag ▸ hfalse
    exact not_lt.mp (of_decide_eq_false hd)

/-- C3 witness: the amended normal property applied to the first emitted
normal of the unit-triangle run: its flag matches the threshold comparison
and the normalized vector has magnitude 1. -/
theorem tessellate_normals_amended_witness :
    ((⟨0, 0, 1⟩ : Vec3), true).2 = decide (epsSq < Vec3.magSq ⟨0, 0, 1⟩) ∧
    Real.sqrt ((((⟨0, 0, 1⟩ : Vec3).x : ℝ) /
          Real.sqrt ((Vec3.magSq ⟨0, 0, 1⟩ : ℚ) : ℝ)) ^ 2 +
        (((⟨0, 0, 1⟩ : Vec3).y : ℝ) /
          Real.sqrt ((Vec3.magSq ⟨0, 0, 1⟩ : ℚ) : ℝ)) ^ 2 +
        (((⟨0, 0, 1⟩ : Vec3).z : ℝ) /
          Real.sqrt ((Vec3.magSq ⟨0, 0, 1⟩ : ℚ) : ℝ)) ^ 2) = 1 := by
  have h := tessellate_normals_amended (some solidShape) someParams unitMk unitMesh
    unit_run_eval (⟨0, 0, 1⟩, true) (by simp [unitMesh])
  exact ⟨h.1, h.2.1 rfl⟩

/-- C5: in every returned mesh each face's triangle indices were emitted
with an offset equal to the number of vertices accumulated before that face
(the walk step adds offset + n - 1 for the 1-based node index n), so under
the kernel contract that every face triangulation references nodes 1 to its
node count, every entry of the triangle array lies in [0, num_vertices). -/
theorem tessellate_indices_in_range (shape : Option TShape) (params : TessParams)
    (mk : MeshKernel) (m : Mesh)
    (hwf : ∀ f ∈ mk.faces, ∀ ft, f = some ft → ft.wf)
    (hm : OCCT_Tessellate shape params mk = some m) :
    ∀ j ∈ m.triangles, 0 ≤ j ∧ j < (m.vertices.length : ℤ) := by
  obtain ⟨hmw, -, -⟩ := tessellate_some hm
  subst hmw
  exact tessWalk_tri_bounds mk.faces ⟨[], [], []⟩ hwf
    (fun j hj => absurd hj (by simp))

/-- C5 witness: the index-range property applied to the last triangle index
of the unit-triangle run: index 2 against 3 vertices. -/
theorem tessellate_indices_in_range_witness :
    0 ≤ (2 : ℤ) ∧ (2 : ℤ) < (unitMesh.vertices.length : ℤ) :=
  tessellate_indices_in_range (some solidShape) someParams unitMk unitMesh
    (by
      intro f hf ft hft
      simp only [unitMk, List.mem_singleton] at hf
      subst hf
      injection hft with hft2
      subst hft2
      unfold FaceTri.wf
      decide)
    unit_run_eval 2 (by simp [unitMesh])

/-- C7 counterexample: a non-null, non-empty shape whose mesher run did not
complete makes OCCT_Tessellate return null even though the face walk over
the observed triangulations yields three vertices and one triangle, so the
null return is not limited to the three cases the claim lists. -/
theorem tessellate_null_on_mesher_failure :
    OCCT_Tessellate (some solidShape) someParams failedMk = none ∧
    solidShape.isNull = false ∧
    (tessWalk failedMk.faces).vertices = unitMesh.vertices ∧
    (tessWalk failedMk.faces).triangles = unitMesh.triangles ∧
    unitMesh.vertices.length = 3 ∧ unitMesh.triangles.length = 3 := by
  refine ⟨rfl, rfl, ?_, ?_, rfl, rfl⟩ <;>
  · simp only [failedMk, unitFace, unitMesh, tessWalk, walkFace, faceNormals,
      accumNormals, emitNormal, addAt, triNormal, Trsf.apply, Trsf.id, dot,
      Vec3.cross, Vec3.sub, Vec3.add, Vec3.magSq, Vec3.zero, epsSq, eps,
      List.foldl, List.map, List.getD, List.get?, List.set, List.length,
      List.append_nil, List.nil_append, List.flatMap]
    norm_num

/-- C7 amended: OCCT_Tessellate returns null exactly when the handle is
null, the referenced shape is empty, the kernel mesher run did not complete
(a caught kernel exception behaves the same), or the face walk yields no
vertices or no triangles; and every returned mesh has at least one vertex
and at least one triangle. -/
theorem tessellate_null_iff (shape : Option TShape) (params : TessParams)
    (mk : MeshKernel) :
    (OCCT_Tessellate shape params mk = none ↔
      shape = none ∨ (∃ s, shape = some s ∧ s.isNull = true) ∨ mk.isDone = false ∨
      (tessWalk mk.faces).vertices = [] ∨ (tessWalk mk.faces).triangles = []) ∧
    ∀ m, OCCT_Tessellate shape params mk = some m →
      m.vertices ≠ [] ∧ m.triangles ≠ [] := by
  constructor
  · cases shape with
    | none => simp [OCCT_Tessellate]
    | some s =>
      simp only [OCCT_Tessellate]
      by_cases h1 : s.isNull = true
      · simp [h1]
      · have h1f : s.isNull = false := by simpa using h1
        by_cases h2 : mk.isDone = true
        · by_cases hv : (tessWalk mk.faces).vertices.isEmpty = true
          · simp [h1f, h2, hv, List.isEmpty_iff.mp hv]
          · have hvf : (tessWalk mk.faces).vertices.isEmpty = false := by simpa using hv
            by_cases ht : (tessWalk mk.faces).triangles.isEmpty = true
            · simp [h1f, h2, ht, List.isEmpty_iff.mp ht]
            · have htf : (tessWalk mk.faces).triangles.isEmpty = false := by simpa using ht
              simp [h1f, h2, hvf, htf, List.isEmpty_eq_false.mp hvf,
                List.isEmpty_eq_false.mp htf]
        · have h2f : mk.isDone = false := by simpa using h2
          simp [h1f, h2f]
  · intro m hm
    obtain ⟨hmw, hv, ht⟩ := tessellate_some hm
    subst hmw
    exact ⟨List.isEmpty_eq_false.mp hv, List.isEmpty_eq_false.mp ht⟩

/-- C7 witness: the amended statement evaluated on the unit-triangle run,
whose returned mesh has a vertex and a triangle. -/
theorem tessellate_null_iff_witness :
    unitMesh.vertices ≠ [] ∧ unitMesh.triangles ≠ [] :=
  (tessellate_null_iff (some solidShape) someParams unitMk).2 unitMesh unit_run_eval

/-- C10 witness: a cone with one zero radius passes validation and delegates,
returning the kernel-built solid, while a cone with both radii zero is
rejected before delegation. -/
theorem cone_spec_witness :
    OCCT_Primitive_Cone 0 1 1 doneKernel = some solidShape ∧
    OCCT_Primitive_Cone 0 0 1 doneKernel = none := by
  constructor
  · have h := (cone_spec 0 1 1 doneKernel).2.2.1
      ((cone_spec 0 1 1 doneKernel).2.2.2 rfl (by norm_num) (by norm_num))
    simpa [doneKernel] using h
  · exact (cone_spec 0 0 1 doneKernel).2.1
      ((cone_spec 0 0 1 doneKernel).1.mpr (Or.inr (Or.inr (Or.inr ⟨rfl, rfl⟩))))

end OCCTWrapper
